import Mathlib

/-!
Verification of the T.LY URL-shortener Go client (`client.go`).

The library is a thin marshalling layer: a single internal dispatcher
`doRequest` builds an HTTP request (URL concatenation, JSON body, three
fixed headers), performs exactly one round trip through the `http.Client`
handle, classifies the response status, and either decodes the body into
the caller's result slot or fails with an error carrying the raw body.
All public operations (pixel / short-link / stats / tag) are stateless
wrappers around this dispatcher.

The embedding below mirrors `client.go` definition by definition.  The
external collaborators the spec declares opaque — the HTTP transport
(`http.Client.Do`, `http.NewRequest`) — are modelled as an ambient `Net`
environment; the JSON codec (`encoding/json`) is modelled concretely by a
small JSON value tree with a renderer (for `json.Marshal` of the payload
types that occur in this client) and a fuel-based parser plus per-type
field decoders (for `json.Decoder.Decode` into the result types that
occur in this client).
-/

/-- A JSON value, as produced/consumed by the `encoding/json` codec for the
types appearing in this client (numbers are integers throughout). -/
inductive Json where
  | null : Json
  | bool (b : Bool) : Json
  | num (n : Int) : Json
  | str (s : String) : Json
  | arr (elems : List Json) : Json
  | obj (fields : List (String × Json)) : Json
deriving Repr

/-- JSON string escaping (quotes and backslashes; the strings sent by this
client contain no control characters). -/
def jsonEscapeChar (c : Char) : String :=
  if c = '"' then "\\\"" else if c = '\\' then "\\\\" else String.singleton c

def jsonEscape (s : String) : String :=
  String.join (s.data.map jsonEscapeChar)

mutual

/-- Serialise a JSON value, modelling the output of `json.Marshal`. -/
def Json.render : Json → String
  | .null => "null"
  | .bool true => "true"
  | .bool false => "false"
  | .num n => toString n
  | .str s => "\"" ++ jsonEscape s ++ "\""
  | .arr xs => "[" ++ Json.renderElems xs ++ "]"
  | .obj fs => "\x7b" ++ Json.renderFields fs ++ "\x7d"

def Json.renderElems : List Json → String
  | [] => ""
  | [x] => x.render
  | x :: y :: xs => x.render ++ "," ++ Json.renderElems (y :: xs)

def Json.renderFields : List (String × Json) → String
  | [] => ""
  | [(k, v)] => "\"" ++ jsonEscape k ++ "\":" ++ v.render
  | (k, v) :: f :: fs =>
      "\"" ++ jsonEscape k ++ "\":" ++ v.render ++ "," ++ Json.renderFields (f :: fs)

end

/-- Whitespace skipping for the JSON reader. -/
def skipWs : List Char → List Char
  | c :: cs => if c = ' ' ∨ c = '\n' ∨ c = '\t' ∨ c = '\r' then skipWs cs else c :: cs
  | [] => []

/-- Match a literal character sequence, returning the rest. -/
def matchLit : List Char → List Char → Option (List Char)
  | [], cs => some cs
  | _ :: _, [] => none
  | p :: ps, c :: cs => if c = p then matchLit ps cs else none

/-- Read the characters of a JSON string literal after the opening quote. -/
def parseStrChars (fuel : Nat) (input : List Char) :
    Except String (String × List Char) :=
  match fuel, input with
  | 0, _ => .error "json: string fuel exhausted"
  | _, [] => .error "json: unterminated string literal"
  | fuel + 1, c :: cs =>
    if c = '"' then .ok ("", cs)
    else if c = '\\' then
      match cs with
      | [] => .error "json: unterminated escape"
      | e :: cs2 =>
        match parseStrChars fuel cs2 with
        | .error m => .error m
        | .ok (rest, rem) =>
            let ec := if e = 'n' then "\n" else if e = 't' then "\t"
              else String.singleton e
            .ok (ec ++ rest, rem)
    else
      match parseStrChars fuel cs with
      | .error m => .error m
      | .ok (rest, rem) => .ok (String.singleton c ++ rest, rem)

/-- Read a run of decimal digits (accumulator style). -/
def parseDigits : List Char → Nat → (Nat × List Char)
  | c :: cs, acc =>
      if c.isDigit then parseDigits cs (acc * 10 + (c.toNat - 48)) else (acc, c :: cs)
  | [], acc => (acc, [])

mutual

/-- Read one JSON value, modelling `json.Decoder.Decode`'s reader. -/
def parseVal : Nat → List Char → Except String (Json × List Char)
  | 0, _ => .error "json: fuel exhausted"
  | fuel + 1, cs =>
    match skipWs cs with
    | [] => .error "json: unexpected end of input"
    | c :: rest =>
      if c = '"' then
        match parseStrChars (rest.length + 1) rest with
        | .error m => .error m
        | .ok (s, rem) => .ok (.str s, rem)
      else if c = '\x7b' then
        match parseFieldList fuel rest with
        | .error m => .error m
        | .ok (fs, rem) => .ok (.obj fs, rem)
      else if c = '[' then
        match parseElemList fuel rest with
        | .error m => .error m
        | .ok (xs, rem) => .ok (.arr xs, rem)
      else if c = 't' then
        match matchLit ['r', 'u', 'e'] rest with
        | some rem => .ok (.bool true, rem)
        | none => .error "json: bad literal"
      else if c = 'f' then
        match matchLit ['a', 'l', 's', 'e'] rest with
        | some rem => .ok (.bool false, rem)
        | none => .error "json: bad literal"
      else if c = 'n' then
        match matchLit ['u', 'l', 'l'] rest with
        | some rem => .ok (.null, rem)
        | none => .error "json: bad literal"
      else if c = '-' then
        match rest with
        | d :: _ =>
          if d.isDigit then
            let (n, rem) := parseDigits rest 0
            .ok (.num (-(n : Int)), rem)
          else .error "json: bad number"
        | [] => .error "json: bad number"
      else if c.isDigit then
        let (n, rem) := parseDigits (c :: rest) 0
        .ok (.num (n : Int), rem)
      else .error "json: unexpected character"

/-- Read array elements after the opening bracket. -/
def parseElemList : Nat → List Char → Except String (List Json × List Char)
  | 0, _ => .error "json: fuel exhausted"
  | fuel + 1, cs =>
    match skipWs cs with
    | ']' :: rem => .ok ([], rem)
    | cs2 =>
      match parseVal fuel cs2 with
      | .error m => .error m
      | .ok (v, rem) =>
        match skipWs rem with
        | ',' :: rem2 =>
          match parseElemList fuel rem2 with
          | .error m => .error m
          | .ok (vs, rem3) => .ok (v :: vs, rem3)
        | ']' :: rem2 => .ok ([v], rem2)
        | _ => .error "json: expected comma or end of array"

/-- Read object members after the opening brace. -/
def parseFieldList : Nat → List Char → Except String (List (String × Json) × List Char)
  | 0, _ => .error "json: fuel exhausted"
  | fuel + 1, cs =>
    match skipWs cs with
    | '\x7d' :: rem => .ok ([], rem)
    | '"' :: rest =>
      match parseStrChars (rest.length + 1) rest with
      | .error m => .error m
      | .ok (k, rem) =>
        match skipWs rem with
        | ':' :: rem2 =>
          match parseVal fuel rem2 with
          | .error m => .error m
          | .ok (v, rem3) =>
            match skipWs rem3 with
            | ',' :: rem4 =>
              match parseFieldList fuel rem4 with
              | .error m => .error m
              | .ok (fs, rem5) => .ok ((k, v) :: fs, rem5)
            | '\x7d' :: rem4 => .ok ([(k, v)], rem4)
            | _ => .error "json: expected comma or end of object"
        | _ => .error "json: expected colon"
    | _ => .error "json: expected object key"

end

/-- Parse one JSON value from a body text, modelling
`json.NewDecoder(body).Decode`: one value is read; an empty body is an
error (io.EOF); trailing input after the value is not consumed. -/
def parseJson (s : String) : Except String Json :=
  match parseVal (2 * s.length + 2) s.data with
  | .error e => .error e
  | .ok (v, _) => .ok v

/-! ## HTTP model

`http.NewRequest` and `http.Client.Do` are external collaborators (spec §1:
the transport is opaque).  A `Net` environment gives their behaviour: the
validity check performed by `http.NewRequest` on (method, url), and the
response (or transport error) produced by `Do` on the client's transport
handle for a given request. -/

/-- The request built by `http.NewRequest` plus the headers set on it:
method, target URL, header list (via `Header.Set` on a fresh header map),
and serialised body bytes (empty for a nil body buffer). -/
structure HttpRequest where
  method : String
  url : String
  headers : List (String × String)
  body : String
deriving DecidableEq, Repr

/-- The parts of `http.Response` this client observes: the status code,
the body bytes, and whether reading the body stream fails (in which case
`ioutil.ReadAll` returns an error and no data, and `json.Decode` fails). -/
structure HttpResponse where
  statusCode : Nat
  body : String
  readFails : Bool
deriving DecidableEq, Repr

/-- The ambient network world: `newReqErr method url` is the error returned
by `http.NewRequest` (none = request built fine), and `transport handle req`
is what `Do` on the given `http.Client` handle returns. -/
structure Net where
  newReqErr : String → String → Option String
  transport : Nat → HttpRequest → Except String HttpResponse

/-- Go `Client` from client.go: API key, base URL, and the `*http.Client`
transport handle (opaque — modelled by an identifier whose behaviour the
ambient `Net` supplies). -/
structure Client where
  APIKey : String
  BaseURL : String
  httpClient : Nat
deriving DecidableEq, Repr

/-- Go `NewClient` from client.go: fixed base URL, fresh `&http.Client{}`. -/
def NewClient (apiKey : String) : Client :=
  { APIKey := apiKey, BaseURL := "https://api.t.ly", httpClient := 0 }

/-- The one error value a call returns, classified by where it arose
(Go surfaces all of these as a bare `error`). -/
inductive DoError where
  | marshalErr (msg : String)
  | newRequestErr (msg : String)
  | transportErr (msg : String)
  | apiErr (msg : String)
  | decodeErr (msg : String)
deriving DecidableEq, Repr

/-- Outcome of one `doRequest` call: the receiver (never written by the
source, returned to make the frame condition statable), the list of
requests actually handed to the transport, the final contents of the
result slot, and the returned error. -/
structure DoOut (ρ : Type) where
  client : Client
  trace : List HttpRequest
  slot : Option ρ
  err : Option DoError

/-- The serialised request body: `json.Marshal(body)` when a payload is
present (client.go lines 34-39), the empty buffer otherwise (line 41). -/
def goBody {σ : Type} (marshal : σ → Except String String) :
    Option σ → Except String String
  | some b => marshal b
  | none => .ok ""

/-- The header set `doRequest` installs (client.go lines 47-49). -/
def doRequestHeaders (c : Client) : List (String × String) :=
  [("Authorization", "Bearer " ++ c.APIKey),
   ("Content-Type", "application/json"),
   ("Accept", "application/json")]

/-- The target URL (client.go lines 29-32): base ++ path, then "?" ++ query
when the query string is non-empty. -/
def doRequestUrl (c : Client) (path query : String) : String :=
  if query ≠ "" then c.BaseURL ++ path ++ "?" ++ query else c.BaseURL ++ path

/-- The request `doRequest` builds and hands to the transport
(client.go lines 43-49): method, target URL, the three fixed headers,
and the serialised body. -/
def builtRequest (c : Client) (method path query bodyStr : String) : HttpRequest :=
  { method := method, url := doRequestUrl c path query,
    headers := doRequestHeaders c, body := bodyStr }

/-- Go `doRequest` from client.go lines 28-63, translated branch for branch.
`marshal` is `json.Marshal` at the payload's type, `decode` is
`json.NewDecoder(resp.Body).Decode` at the result type, `slot` is the
caller's result argument (`none` = nil interface, `some z` = pointer to a
zero-initialised variable `z`).  A failed `ioutil.ReadAll` (line 56)
returns an error — which the source discards with `_` — and no data, so
the error text degrades to an empty body. -/
def doRequest {σ ρ : Type} (c : Client) (net : Net)
    (marshal : σ → Except String String) (decode : String → Except String ρ)
    (method path query : String) (body : Option σ) (slot : Option ρ) :
    DoOut ρ :=
  let url := doRequestUrl c path query
  match goBody marshal body with
  | .error e => ⟨c, [], slot, some (.marshalErr e)⟩
  | .ok bodyStr =>
    match net.newReqErr method url with
    | some e => ⟨c, [], slot, some (.newRequestErr e)⟩
    | none =>
      let req : HttpRequest := builtRequest c method path query bodyStr
      match net.transport c.httpClient req with
      | .error e => ⟨c, [req], slot, some (.transportErr e)⟩
      | .ok resp =>
        if resp.statusCode < 200 ∨ 300 ≤ resp.statusCode then
          let data := if resp.readFails then "" else resp.body
          ⟨c, [req], slot, some (.apiErr ("API error: " ++ data))⟩
        else
          match slot with
          | some _ =>
            match decode resp.body with
            | .error e => ⟨c, [req], slot, some (.decodeErr e)⟩
            | .ok v => ⟨c, [req], some v, none⟩
          | none => ⟨c, [req], none, none⟩

/-! ## Result and payload types (client.go data model)

Go `interface{}` fields decode to an arbitrary JSON value, modelled by
`Json` (zero value: the nil interface, modelled `Json.null`).  Optional
pointer fields of the request types are `Option`; `omitempty` omits `none`
pointers and empty slices from the marshalled object. -/

/-- Go `Pixel` (client.go lines 70-77). -/
structure Pixel where
  ID : Int
  Name : String
  PixelID : String
  PixelType : String
  CreatedAt : String
  UpdatedAt : String
deriving DecidableEq, Repr

/-- Go `Tag` (client.go lines 323-328). -/
structure Tag where
  ID : Int
  Tag : String
  CreatedAt : String
  UpdatedAt : String
deriving DecidableEq, Repr

/-- Go `ShortLink` (client.go lines 147-159). -/
structure ShortLink where
  ShortURL : String
  Description : String
  LongURL : String
  Domain : String
  ShortID : String
  ExpireAtViews : Json
  ExpireAtDatetime : Json
  PublicStats : Bool
  CreatedAt : String
  UpdatedAt : String
  Meta : Json
deriving Repr

/-- Go `ExpandResponse` (client.go lines 237-240). -/
structure ExpandResponse where
  LongURL : String
  Expired : Bool
deriving DecidableEq, Repr

/-- Go `Stats` (client.go lines 296-305): slice-of-interface and
map-of-interface fields are lists of JSON values / key-value pairs. -/
structure Stats where
  Clicks : Int
  UniqueClicks : Int
  Browsers : List Json
  Countries : List Json
  Referrers : List Json
  Platforms : List Json
  DailyClicks : List Json
  Data : List (String × Json)
deriving Repr

/-- Go zero values of the result structs (the wrappers declare
`var x T` before dispatching). -/
def zeroPixel : Pixel := ⟨0, "", "", "", "", ""⟩

def zeroTag : Tag := ⟨0, "", "", ""⟩

def zeroShortLink : ShortLink :=
  ⟨"", "", "", "", "", .null, .null, false, "", "", .null⟩

def zeroExpandResponse : ExpandResponse := ⟨"", false⟩

def zeroStats : Stats := ⟨0, 0, [], [], [], [], [], []⟩

/-- Go `PixelCreateRequest` (client.go lines 80-84). -/
structure PixelCreateRequest where
  Name : String
  PixelID : String
  PixelType : String
deriving DecidableEq, Repr

/-- Go `PixelUpdateRequest` (client.go lines 87-92). -/
structure PixelUpdateRequest where
  ID : Int
  Name : String
  PixelID : String
  PixelType : String
deriving DecidableEq, Repr

/-- Go `ShortLinkCreateRequest` (client.go lines 162-174). -/
structure ShortLinkCreateRequest where
  LongURL : String
  ShortID : Option String
  Domain : String
  ExpireAtDatetime : Option String
  ExpireAtViews : Option Int
  Description : Option String
  PublicStats : Option Bool
  Password : Option String
  Tags : List Int
  Pixels : List Int
  Meta : Option Json
deriving Repr

/-- Go `ShortLinkUpdateRequest` (client.go lines 177-189). -/
structure ShortLinkUpdateRequest where
  ShortURL : String
  ShortID : Option String
  LongURL : String
  ExpireAtDatetime : Option String
  ExpireAtViews : Option Int
  Description : Option String
  PublicStats : Option Bool
  Password : Option String
  Tags : List Int
  Pixels : List Int
  Meta : Option Json
deriving Repr

/-- Go `ExpandRequest` (client.go lines 231-234). -/
structure ExpandRequest where
  ShortURL : String
  Password : Option String
deriving Repr

/-- Go `BulkShortenRequest` (client.go lines 274-279). -/
structure BulkShortenRequest where
  Domain : String
  Links : List String
  Tags : List Int
  Pixels : List Int
deriving Repr

/-! ### Marshalling the payload types (`json.Marshal` semantics:
struct fields in declaration order; `omitempty` drops nil pointers and
empty slices; a Go `map[string]string` with a single key needs no key
ordering). -/

/-- An `omitempty` pointer field. -/
def optField (k : String) : Option Json → List (String × Json)
  | none => []
  | some v => [(k, v)]

/-- An `omitempty` int-slice field. -/
def intsField (k : String) : List Int → List (String × Json)
  | [] => []
  | xs => [(k, .arr (xs.map Json.num))]

def PixelCreateRequest.toJson (r : PixelCreateRequest) : Json :=
  .obj [("name", .str r.Name), ("pixel_id", .str r.PixelID),
        ("pixel_type", .str r.PixelType)]

def PixelUpdateRequest.toJson (r : PixelUpdateRequest) : Json :=
  .obj [("id", .num r.ID), ("name", .str r.Name), ("pixel_id", .str r.PixelID),
        ("pixel_type", .str r.PixelType)]

def ShortLinkCreateRequest.toJson (r : ShortLinkCreateRequest) : Json :=
  .obj ([("long_url", Json.str r.LongURL)]
    ++ optField "short_id" (r.ShortID.map Json.str)
    ++ [("domain", Json.str r.Domain)]
    ++ optField "expire_at_datetime" (r.ExpireAtDatetime.map Json.str)
    ++ optField "expire_at_views" (r.ExpireAtViews.map Json.num)
    ++ optField "description" (r.Description.map Json.str)
    ++ optField "public_stats" (r.PublicStats.map Json.bool)
    ++ optField "password" (r.Password.map Json.str)
    ++ intsField "tags" r.Tags
    ++ intsField "pixels" r.Pixels
    ++ optField "meta" r.Meta)

def ShortLinkUpdateRequest.toJson (r : ShortLinkUpdateRequest) : Json :=
  .obj ([("short_url", Json.str r.ShortURL)]
    ++ optField "short_id" (r.ShortID.map Json.str)
    ++ [("long_url", Json.str r.LongURL)]
    ++ optField "expire_at_datetime" (r.ExpireAtDatetime.map Json.str)
    ++ optField "expire_at_views" (r.ExpireAtViews.map Json.num)
    ++ optField "description" (r.Description.map Json.str)
    ++ optField "public_stats" (r.PublicStats.map Json.bool)
    ++ optField "password" (r.Password.map Json.str)
    ++ intsField "tags" r.Tags
    ++ intsField "pixels" r.Pixels
    ++ optField "meta" r.Meta)

def ExpandRequest.toJson (r : ExpandRequest) : Json :=
  .obj ([("short_url", Json.str r.ShortURL)]
    ++ optField "password" (r.Password.map Json.str))

def BulkShortenRequest.toJson (r : BulkShortenRequest) : Json :=
  .obj ([("domain", Json.str r.Domain),
         ("links", Json.arr (r.Links.map Json.str))]
    ++ intsField "tags" r.Tags
    ++ intsField "pixels" r.Pixels)

/-- A Go `map[string]string` body (`CreateTag`, `UpdateTag`,
`DeleteShortLink` build single-key maps). -/
def strMapToJson (m : List (String × String)) : Json :=
  .obj (m.map (fun kv => (kv.1, Json.str kv.2)))

/-- Function `json.Marshal` applied at the payload types of this client never fails. -/
def marshalJson (j : Json) : Except String String := .ok j.render

def marshalPixelCreate (r : PixelCreateRequest) : Except String String :=
  .ok r.toJson.render

def marshalPixelUpdate (r : PixelUpdateRequest) : Except String String :=
  .ok r.toJson.render

def marshalShortLinkCreate (r : ShortLinkCreateRequest) : Except String String :=
  .ok r.toJson.render

def marshalShortLinkUpdate (r : ShortLinkUpdateRequest) : Except String String :=
  .ok r.toJson.render

def marshalExpand (r : ExpandRequest) : Except String String :=
  .ok r.toJson.render

def marshalBulk (r : BulkShortenRequest) : Except String String :=
  .ok r.toJson.render

def marshalStrMap (m : List (String × String)) : Except String String :=
  .ok (strMapToJson m).render

/-! ### Decoding into the result types (`encoding/json` unmarshal
semantics for the shapes this client receives: a missing object key
leaves the field at its zero value, JSON `null` leaves the target
unchanged — here always zero-valued fresh variables — and a type
mismatch is an unmarshal error). -/

def jLookup : List (String × Json) → String → Option Json
  | [], _ => none
  | (k, v) :: fs, key => if k = key then some v else jLookup fs key

/-- An `int` struct field. -/
def fieldInt (fs : List (String × Json)) (k : String) : Except String Int :=
  match jLookup fs k with
  | none => .ok 0
  | some .null => .ok 0
  | some (.num n) => .ok n
  | some _ => .error ("json: cannot unmarshal into int field " ++ k)

/-- A `string` struct field. -/
def fieldStr (fs : List (String × Json)) (k : String) : Except String String :=
  match jLookup fs k with
  | none => .ok ""
  | some .null => .ok ""
  | some (.str s) => .ok s
  | some _ => .error ("json: cannot unmarshal into string field " ++ k)

/-- A `bool` struct field. -/
def fieldBool (fs : List (String × Json)) (k : String) : Except String Bool :=
  match jLookup fs k with
  | none => .ok false
  | some .null => .ok false
  | some (.bool b) => .ok b
  | some _ => .error ("json: cannot unmarshal into bool field " ++ k)

/-- An `interface{}` struct field: accepts any JSON value. -/
def fieldAny (fs : List (String × Json)) (k : String) : Json :=
  match jLookup fs k with
  | none => .null
  | some v => v

/-- A `[]interface{}` struct field. -/
def fieldList (fs : List (String × Json)) (k : String) :
    Except String (List Json) :=
  match jLookup fs k with
  | none => .ok []
  | some .null => .ok []
  | some (.arr xs) => .ok xs
  | some _ => .error ("json: cannot unmarshal into slice field " ++ k)

/-- A `map[string]interface{}` struct field. -/
def fieldMap (fs : List (String × Json)) (k : String) :
    Except String (List (String × Json)) :=
  match jLookup fs k with
  | none => .ok []
  | some .null => .ok []
  | some (.obj kvs) => .ok kvs
  | some _ => .error ("json: cannot unmarshal into map field " ++ k)

def decodePixel : Json → Except String Pixel
  | .null => .ok zeroPixel
  | .obj fs => do
    let i ← fieldInt fs "id"
    let n ← fieldStr fs "name"
    let pid ← fieldStr fs "pixel_id"
    let pt ← fieldStr fs "pixel_type"
    let ca ← fieldStr fs "created_at"
    let ua ← fieldStr fs "updated_at"
    .ok ⟨i, n, pid, pt, ca, ua⟩
  | _ => .error "json: cannot unmarshal into Pixel"

def decodeTag : Json → Except String Tag
  | .null => .ok zeroTag
  | .obj fs => do
    let i ← fieldInt fs "id"
    let t ← fieldStr fs "tag"
    let ca ← fieldStr fs "created_at"
    let ua ← fieldStr fs "updated_at"
    .ok ⟨i, t, ca, ua⟩
  | _ => .error "json: cannot unmarshal into Tag"

def decodeShortLink : Json → Except String ShortLink
  | .null => .ok zeroShortLink
  | .obj fs => do
    let su ← fieldStr fs "short_url"
    let de ← fieldStr fs "description"
    let lu ← fieldStr fs "long_url"
    let dom ← fieldStr fs "domain"
    let sid ← fieldStr fs "short_id"
    let ps ← fieldBool fs "public_stats"
    let ca ← fieldStr fs "created_at"
    let ua ← fieldStr fs "updated_at"
    .ok ⟨su, de, lu, dom, sid, fieldAny fs "expire_at_views",
         fieldAny fs "expire_at_datetime", ps, ca, ua, fieldAny fs "meta"⟩
  | _ => .error "json: cannot unmarshal into ShortLink"

def decodeExpandResponse : Json → Except String ExpandResponse
  | .null => .ok zeroExpandResponse
  | .obj fs => do
    let lu ← fieldStr fs "long_url"
    let ex ← fieldBool fs "expired"
    .ok ⟨lu, ex⟩
  | _ => .error "json: cannot unmarshal into ExpandResponse"

def decodeStats : Json → Except String Stats
  | .null => .ok zeroStats
  | .obj fs => do
    let cl ← fieldInt fs "clicks"
    let uc ← fieldInt fs "unique_clicks"
    let br ← fieldList fs "browsers"
    let co ← fieldList fs "countries"
    let re ← fieldList fs "referrers"
    let pl ← fieldList fs "platforms"
    let dc ← fieldList fs "daily_clicks"
    let da ← fieldMap fs "data"
    .ok ⟨cl, uc, br, co, re, pl, dc, da⟩
  | _ => .error "json: cannot unmarshal into Stats"

/-- Decoding into a Go `string` target: the body must be a JSON string
literal; its contents are delivered undecoded (the second-pass decode is
left to the caller). -/
def decodeGoString : Json → Except String String
  | .str s => .ok s
  | .null => .ok ""
  | _ => .error "json: cannot unmarshal into string"

/-- Decoding into a `[]Pixel` target. -/
def decodePixelList : Json → Except String (List Pixel)
  | .null => .ok []
  | .arr xs => xs.mapM decodePixel
  | _ => .error "json: cannot unmarshal into slice of Pixel"

/-- Decoding into a `[]Tag` target. -/
def decodeTagList : Json → Except String (List Tag)
  | .null => .ok []
  | .arr xs => xs.mapM decodeTag
  | _ => .error "json: cannot unmarshal into slice of Tag"

/-- Composition `json.NewDecoder(resp.Body).Decode(&x)` for each result type:
parse one JSON value from the body text, then unmarshal. -/
def decodePixelText (s : String) : Except String Pixel :=
  (parseJson s).bind decodePixel

def decodeTagText (s : String) : Except String Tag :=
  (parseJson s).bind decodeTag

def decodeShortLinkText (s : String) : Except String ShortLink :=
  (parseJson s).bind decodeShortLink

def decodeExpandText (s : String) : Except String ExpandResponse :=
  (parseJson s).bind decodeExpandResponse

def decodeStatsText (s : String) : Except String Stats :=
  (parseJson s).bind decodeStats

def decodeGoStringText (s : String) : Except String String :=
  (parseJson s).bind decodeGoString

def decodePixelListText (s : String) : Except String (List Pixel) :=
  (parseJson s).bind decodePixelList

def decodeTagListText (s : String) : Except String (List Tag) :=
  (parseJson s).bind decodeTagList

/-- Decode at type `Unit`, for calls that pass a nil result slot (never
invoked by `doRequest` when the slot is `none`). -/
def decodeUnitText (_ : String) : Except String Unit := .ok ()

/-! ## Public operations (client.go lines 95-382)

Each Go method returns a Go multi-value `(result, error)`; the model also
carries the receiver (for the frame condition) and the request trace. -/

/-- Return shape of an operation returning `(*T, error)` (or a slice):
`res = none` models a nil pointer/slice. -/
structure CallOut (ρ : Type) where
  client : Client
  trace : List HttpRequest
  res : Option ρ
  err : Option DoError

/-- Return shape of an operation returning `(string, error)`. -/
structure StrCallOut where
  client : Client
  trace : List HttpRequest
  res : String
  err : Option DoError

/-- Return shape of an operation returning only `error`. -/
structure UnitCallOut where
  client : Client
  trace : List HttpRequest
  err : Option DoError

/-- Package a `doRequest` outcome the way the `(*T, error)` wrappers do:
`if err != nil { return nil, err }; return &x, nil`. -/
def ptrWrap {ρ : Type} (out : DoOut ρ) : CallOut ρ :=
  match out.err with
  | some e => ⟨out.client, out.trace, none, some e⟩
  | none => ⟨out.client, out.trace, out.slot, none⟩

/-- Go `CreatePixel` (client.go lines 95-102). -/
def CreatePixel (c : Client) (net : Net) (reqData : PixelCreateRequest) :
    CallOut Pixel :=
  ptrWrap (doRequest c net marshalPixelCreate decodePixelText
    "POST" "/api/v1/link/pixel" "" (some reqData) (some zeroPixel))

/-- Go `ListPixels` (client.go lines 105-112). -/
def ListPixels (c : Client) (net : Net) : CallOut (List Pixel) :=
  ptrWrap (doRequest c net marshalJson decodePixelListText
    "GET" "/api/v1/link/pixel" "" none (some []))

/-- Go `GetPixel` (client.go lines 115-123). -/
def GetPixel (c : Client) (net : Net) (id : Int) : CallOut Pixel :=
  ptrWrap (doRequest c net marshalJson decodePixelText
    "GET" ("/api/v1/link/pixel/" ++ toString id) "" none (some zeroPixel))

/-- Go `UpdatePixel` (client.go lines 126-134). -/
def UpdatePixel (c : Client) (net : Net) (reqData : PixelUpdateRequest) :
    CallOut Pixel :=
  ptrWrap (doRequest c net marshalPixelUpdate decodePixelText
    "PUT" ("/api/v1/link/pixel/" ++ toString reqData.ID) "" (some reqData)
    (some zeroPixel))

/-- Go `DeletePixel` (client.go lines 137-140): nil body, nil result slot. -/
def DeletePixel (c : Client) (net : Net) (id : Int) : UnitCallOut :=
  let out := doRequest c net marshalJson decodeUnitText
    "DELETE" ("/api/v1/link/pixel/" ++ toString id) "" none none
  ⟨out.client, out.trace, out.err⟩

/-- Go `CreateShortLink` (client.go lines 192-199). -/
def CreateShortLink (c : Client) (net : Net) (reqData : ShortLinkCreateRequest) :
    CallOut ShortLink :=
  ptrWrap (doRequest c net marshalShortLinkCreate decodeShortLinkText
    "POST" "/api/v1/link/shorten" "" (some reqData) (some zeroShortLink))

/-- Go `GetShortLink` (client.go lines 202-210): the query is the literal
concatenation `"short_url=" ++ shortURL`, unescaped. -/
def GetShortLink (c : Client) (net : Net) (shortURL : String) :
    CallOut ShortLink :=
  ptrWrap (doRequest c net marshalJson decodeShortLinkText
    "GET" "/api/v1/link" ("short_url=" ++ shortURL) none (some zeroShortLink))

/-- Go `UpdateShortLink` (client.go lines 213-220). -/
def UpdateShortLink (c : Client) (net : Net) (reqData : ShortLinkUpdateRequest) :
    CallOut ShortLink :=
  ptrWrap (doRequest c net marshalShortLinkUpdate decodeShortLinkText
    "PUT" "/api/v1/link" "" (some reqData) (some zeroShortLink))

/-- Go `DeleteShortLink` (client.go lines 223-228): sends a JSON body
`{ "short_url": shortURL }`, nil result slot. -/
def DeleteShortLink (c : Client) (net : Net) (shortURL : String) : UnitCallOut :=
  let reqBody := [("short_url", shortURL)]
  let out := doRequest c net marshalStrMap decodeUnitText
    "DELETE" "/api/v1/link" "" (some reqBody) none
  ⟨out.client, out.trace, out.err⟩

/-- Go `ExpandShortLink` (client.go lines 243-250). -/
def ExpandShortLink (c : Client) (net : Net) (reqData : ExpandRequest) :
    CallOut ExpandResponse :=
  ptrWrap (doRequest c net marshalExpand decodeExpandText
    "POST" "/api/v1/link/expand" "" (some reqData) (some zeroExpandResponse))

/-- The query-building loop of `ListShortLinks` (client.go lines 255-263):
`key=value` pairs joined by `&` (a Go map's iteration order is not
specified; the model fixes one order by taking a list). -/
def buildQuery (queryParams : List (String × String)) : String :=
  (queryParams.foldl
    (fun acc kv =>
      ((acc.1 ++ (if acc.2 then "" else "&")) ++ kv.1 ++ "=" ++ kv.2, false))
    ("", true)).1

/-- Package a `doRequest` outcome the way the `(string, error)` wrappers
do: `if err != nil { return "", err }; return result, nil`. -/
def strWrap (out : DoOut String) : StrCallOut :=
  match out.err with
  | some e => ⟨out.client, out.trace, "", some e⟩
  | none => ⟨out.client, out.trace, out.slot.getD "", none⟩

/-- Go `ListShortLinks` (client.go lines 254-271): decodes the body into a
Go `string` and returns it as delivered. -/
def ListShortLinks (c : Client) (net : Net)
    (queryParams : List (String × String)) : StrCallOut :=
  let query := buildQuery queryParams
  strWrap (doRequest c net marshalJson decodeGoStringText
    "GET" "/api/v1/link/list" query none (some ""))

/-- Go `BulkShortenLinks` (client.go lines 282-289). -/
def BulkShortenLinks (c : Client) (net : Net) (reqData : BulkShortenRequest) :
    StrCallOut :=
  strWrap (doRequest c net marshalBulk decodeGoStringText
    "POST" "/api/v1/link/bulk" "" (some reqData) (some ""))

/-- Go `GetStats` (client.go lines 308-316): unescaped `short_url` query. -/
def GetStats (c : Client) (net : Net) (shortURL : String) : CallOut Stats :=
  ptrWrap (doRequest c net marshalJson decodeStatsText
    "GET" "/api/v1/link/stats" ("short_url=" ++ shortURL) none (some zeroStats))

/-- Go `ListTags` (client.go lines 331-338). -/
def ListTags (c : Client) (net : Net) : CallOut (List Tag) :=
  ptrWrap (doRequest c net marshalJson decodeTagListText
    "GET" "/api/v1/link/tag" "" none (some []))

/-- Go `CreateTag` (client.go lines 341-351): body is the single-key map
`{ "tag": tagValue }`. -/
def CreateTag (c : Client) (net : Net) (tagValue : String) : CallOut Tag :=
  ptrWrap (doRequest c net marshalStrMap decodeTagText
    "POST" "/api/v1/link/tag" "" (some [("tag", tagValue)]) (some zeroTag))

/-- Go `GetTag` (client.go lines 354-362). -/
def GetTag (c : Client) (net : Net) (id : Int) : CallOut Tag :=
  ptrWrap (doRequest c net marshalJson decodeTagText
    "GET" ("/api/v1/link/tag/" ++ toString id) "" none (some zeroTag))

/-- Go `UpdateTag` (client.go lines 365-376). -/
def UpdateTag (c : Client) (net : Net) (id : Int) (tagValue : String) :
    CallOut Tag :=
  ptrWrap (doRequest c net marshalStrMap decodeTagText
    "PUT" ("/api/v1/link/tag/" ++ toString id) "" (some [("tag", tagValue)])
    (some zeroTag))

/-- Go `DeleteTag` (client.go lines 379-382): nil body, nil result slot. -/
def DeleteTag (c : Client) (net : Net) (id : Int) : UnitCallOut :=
  let out := doRequest c net marshalJson decodeUnitText
    "DELETE" ("/api/v1/link/tag/" ++ toString id) "" none none
  ⟨out.client, out.trace, out.err⟩

/-- A network world whose transport always yields the given response and
whose request construction always succeeds (used to instantiate the
universally-quantified theorems at concrete inputs). -/
def constNet (resp : HttpResponse) : Net :=
  ⟨fun _ _ => none, fun _ _ => .ok resp⟩

/-- A network world whose transport always fails. -/
def downNet : Net :=
  ⟨fun _ _ => none, fun _ _ => .error "connection refused"⟩

/-! ## Helper lemmas about the dispatcher -/

/-- The dispatcher never writes the receiver. -/
theorem doRequest_client {σ ρ : Type} (c : Client) (net : Net)
    (marshal : σ → Except String String) (decode : String → Except String ρ)
    (method path query : String) (body : Option σ) (slot : Option ρ) :
    (doRequest c net marshal decode method path query body slot).client = c := by
  simp only [doRequest]
  repeat' split
  all_goals rfl

/-- Every request `doRequest` hands to the transport is the built request
for some serialised body. -/
theorem doRequest_trace_cases {σ ρ : Type} (c : Client) (net : Net)
    (marshal : σ → Except String String) (decode : String → Except String ρ)
    (method path query : String) (body : Option σ) (slot : Option ρ) :
    (doRequest c net marshal decode method path query body slot).trace = []
    ∨ ∃ bodyStr,
        (doRequest c net marshal decode method path query body slot).trace
          = [builtRequest c method path query bodyStr] := by
  simp only [doRequest]
  repeat' split
  all_goals first
    | exact Or.inl rfl
    | exact Or.inr ⟨_, rfl⟩

/-- At most one request per dispatch. -/
theorem doRequest_trace_len {σ ρ : Type} (c : Client) (net : Net)
    (marshal : σ → Except String String) (decode : String → Except String ρ)
    (method path query : String) (body : Option σ) (slot : Option ρ) :
    (doRequest c net marshal decode method path query body slot).trace.length ≤ 1 := by
  simp only [doRequest]
  repeat' split
  all_goals simp

/-- A successful dispatch sent exactly one request. -/
theorem doRequest_ok_trace {σ ρ : Type} (c : Client) (net : Net)
    (marshal : σ → Except String String) (decode : String → Except String ρ)
    (method path query : String) (body : Option σ) (slot : Option ρ)
    (h : (doRequest c net marshal decode method path query body slot).err = none) :
    (doRequest c net marshal decode method path query body slot).trace.length = 1 := by
  simp only [doRequest] at h ⊢
  repeat' split at h
  all_goals (try simp_all)
  all_goals (split <;> rfl)

/-- A non-nil result slot stays non-nil. -/
theorem doRequest_slot_isSome {σ ρ : Type} (c : Client) (net : Net)
    (marshal : σ → Except String String) (decode : String → Except String ρ)
    (method path query : String) (body : Option σ) (z : ρ) :
    (doRequest c net marshal decode method path query body (some z)).slot.isSome := by
  simp only [doRequest]
  repeat' split
  all_goals simp

/-- Full characterisation of a dispatch when the request builds and the
transport answers with `resp`. -/
theorem doRequest_resp {σ ρ : Type} (c : Client) (net : Net)
    (marshal : σ → Except String String) (decode : String → Except String ρ)
    (method path query : String) (body : Option σ) (slot : Option ρ)
    (bodyStr : String) (resp : HttpResponse)
    (hm : goBody marshal body = .ok bodyStr)
    (hn : ∀ m u, net.newReqErr m u = none)
    (ht : ∀ h r, net.transport h r = .ok resp) :
    doRequest c net marshal decode method path query body slot =
      if resp.statusCode < 200 ∨ 300 ≤ resp.statusCode then
        ⟨c, [builtRequest c method path query bodyStr], slot,
         some (.apiErr ("API error: " ++ (if resp.readFails then "" else resp.body)))⟩
      else
        match slot with
        | some _ =>
          match decode resp.body with
          | .error e => ⟨c, [builtRequest c method path query bodyStr], slot,
                         some (.decodeErr e)⟩
          | .ok v => ⟨c, [builtRequest c method path query bodyStr], some v, none⟩
        | none => ⟨c, [builtRequest c method path query bodyStr], none, none⟩ := by
  simp only [doRequest, hm, hn, ht]

/-- The result packer for pointer wrappers never writes the receiver either. -/
theorem ptrWrap_client {ρ : Type} (out : DoOut ρ) :
    (ptrWrap out).client = out.client := by
  unfold ptrWrap
  split
  all_goals rfl

theorem ptrWrap_trace {ρ : Type} (out : DoOut ρ) :
    (ptrWrap out).trace = out.trace := by
  unfold ptrWrap
  split
  all_goals rfl

theorem strWrap_client (out : DoOut String) :
    (strWrap out).client = out.client := by
  unfold strWrap
  split
  all_goals rfl

theorem strWrap_trace (out : DoOut String) :
    (strWrap out).trace = out.trace := by
  unfold strWrap
  split
  all_goals rfl

/-- The `(string, error)` wrappers return `""` alongside any error. -/
theorem strWrap_err_res (out : DoOut String)
    (h : (strWrap out).err ≠ none) : (strWrap out).res = "" := by
  revert h
  unfold strWrap
  split
  all_goals simp

/-- A populated result slot makes the pointer result present exactly when
the error is absent. -/
theorem ptrWrap_res_iff {ρ : Type} (out : DoOut ρ) (h : out.slot.isSome) :
    (ptrWrap out).res.isSome ↔ (ptrWrap out).err = none := by
  unfold ptrWrap
  split
  all_goals simp_all

/-- C1 (amended): for every dispatched call whose response status lies
outside [200, 300), the call returns no result and an error whose message
is the string "API error: " followed by the raw response body verbatim;
if reading the body fails, the read error is never surfaced and the
message degrades to carrying an empty body. -/
theorem non2xx_error_carries_raw_body {σ ρ : Type} (c : Client) (net : Net)
    (marshal : σ → Except String String) (decode : String → Except String ρ)
    (method path query : String) (body : Option σ) (slot : Option ρ)
    (bodyStr : String) (resp : HttpResponse)
    (hm : goBody marshal body = .ok bodyStr)
    (hn : ∀ m u, net.newReqErr m u = none)
    (ht : ∀ h r, net.transport h r = .ok resp)
    (hs : resp.statusCode < 200 ∨ 300 ≤ resp.statusCode) :
    (doRequest c net marshal decode method path query body slot).err
        = some (.apiErr ("API error: "
            ++ (if resp.readFails then "" else resp.body)))
    ∧ (ptrWrap (doRequest c net marshal decode method path query body slot)).res
        = none := by
  rw [doRequest_resp c net marshal decode method path query body slot bodyStr resp
    hm hn ht, if_pos hs]
  exact ⟨rfl, rfl⟩

/-- C1 (counterexample): on a 404 with body `{"message":"not found"}` the
error message is `API error: {"message":"not found"}`, which is not the
literal response body text (it carries the body only as a suffix). -/
theorem api_error_message_not_bare_body :
    (CreateTag (NewClient "tok")
        (constNet ⟨404, "\x7b\"message\":\"not found\"\x7d", false⟩) "fall2024").err
      = some (.apiErr "API error: \x7b\"message\":\"not found\"\x7d")
    ∧ ("API error: \x7b\"message\":\"not found\"\x7d" : String)
      ≠ "\x7b\"message\":\"not found\"\x7d" :=
  ⟨rfl, by decide⟩

/-- C1 witness: the amended theorem applied at a concrete 404. -/
theorem non2xx_error_carries_raw_body_witness :
    (doRequest (NewClient "tok")
        (constNet ⟨404, "\x7b\"message\":\"not found\"\x7d", false⟩)
        marshalJson decodeTagText "GET" "/api/v1/link/tag/5" ""
        none (some zeroTag)).err
      = some (.apiErr "API error: \x7b\"message\":\"not found\"\x7d")
    ∧ (ptrWrap (doRequest (NewClient "tok")
        (constNet ⟨404, "\x7b\"message\":\"not found\"\x7d", false⟩)
        marshalJson decodeTagText "GET" "/api/v1/link/tag/5" ""
        none (some zeroTag))).res = none := by
  have h := non2xx_error_carries_raw_body (NewClient "tok")
    (constNet ⟨404, "\x7b\"message\":\"not found\"\x7d", false⟩)
    marshalJson decodeTagText "GET" "/api/v1/link/tag/5" "" none (some zeroTag)
    "" ⟨404, "\x7b\"message\":\"not found\"\x7d", false⟩
    rfl (fun _ _ => rfl) (fun _ _ => rfl) (by decide)
  exact h

/-- C2: for every dispatched call whose response status lies in
[200, 300): if a result slot was supplied and the body decodes at the
expected shape, the decoded value is returned in the slot with no error;
a decode failure propagates as the call's error; with no result slot the
body is discarded and the call succeeds. -/
theorem twoxx_decodes_into_result_slot {σ ρ : Type} (c : Client) (net : Net)
    (marshal : σ → Except String String) (decode : String → Except String ρ)
    (method path query : String) (body : Option σ)
    (bodyStr : String) (resp : HttpResponse)
    (hm : goBody marshal body = .ok bodyStr)
    (hn : ∀ m u, net.newReqErr m u = none)
    (ht : ∀ h r, net.transport h r = .ok resp)
    (hs : 200 ≤ resp.statusCode ∧ resp.statusCode < 300) :
    (∀ (z v : ρ), decode resp.body = .ok v →
        (ptrWrap (doRequest c net marshal decode method path query body
            (some z))).res = some v
        ∧ (ptrWrap (doRequest c net marshal decode method path query body
            (some z))).err = none)
    ∧ (∀ (z : ρ) (e : String), decode resp.body = .error e →
        (doRequest c net marshal decode method path query body (some z)).err
          = some (.decodeErr e))
    ∧ (doRequest c net marshal decode method path query body
        (none : Option ρ)).err = none := by
  have hns : ¬(resp.statusCode < 200 ∨ 300 ≤ resp.statusCode) := by omega
  refine ⟨fun z v hd => ?_, fun z e hd => ?_, ?_⟩
  · rw [doRequest_resp c net marshal decode method path query body (some z)
      bodyStr resp hm hn ht, if_neg hns, hd]
    exact ⟨rfl, rfl⟩
  · rw [doRequest_resp c net marshal decode method path query body (some z)
      bodyStr resp hm hn ht, if_neg hns, hd]
  · rw [doRequest_resp c net marshal decode method path query body none
      bodyStr resp hm hn ht, if_neg hns]

/-- C2 witness: a tag-create call receiving status 200 with body
`{"id":1,"tag":"fall2024","created_at":"2024-01-01","updated_at":"2024-01-01"}`
returns the populated Tag record and no error. -/
theorem twoxx_decodes_into_result_slot_witness :
    (CreateTag (NewClient "tok")
        (constNet ⟨200, "\x7b\"id\":1,\"tag\":\"fall2024\",\"created_at\":\"2024-01-01\",\"updated_at\":\"2024-01-01\"\x7d", false⟩)
        "fall2024").res
      = some ⟨1, "fall2024", "2024-01-01", "2024-01-01"⟩
    ∧ (CreateTag (NewClient "tok")
        (constNet ⟨200, "\x7b\"id\":1,\"tag\":\"fall2024\",\"created_at\":\"2024-01-01\",\"updated_at\":\"2024-01-01\"\x7d", false⟩)
        "fall2024").err = none := by
  have h := (twoxx_decodes_into_result_slot (NewClient "tok")
    (constNet ⟨200, "\x7b\"id\":1,\"tag\":\"fall2024\",\"created_at\":\"2024-01-01\",\"updated_at\":\"2024-01-01\"\x7d", false⟩)
    marshalStrMap decodeTagText "POST" "/api/v1/link/tag" ""
    (some [("tag", "fall2024")]) "\x7b\"tag\":\"fall2024\"\x7d"
    ⟨200, "\x7b\"id\":1,\"tag\":\"fall2024\",\"created_at\":\"2024-01-01\",\"updated_at\":\"2024-01-01\"\x7d", false⟩
    rfl (fun _ _ => rfl) (fun _ _ => rfl) (by decide)).1
    zeroTag ⟨1, "fall2024", "2024-01-01", "2024-01-01"⟩ rfl
  exact h

/-- C3: every request the dispatcher hands to the transport carries
exactly the three headers Authorization ("Bearer " ++ token verbatim),
Content-Type application/json and Accept application/json, independent of
method, path, query, payload and result slot. -/
theorem request_headers_exactly_three_fixed {σ ρ : Type} (c : Client) (net : Net)
    (marshal : σ → Except String String) (decode : String → Except String ρ)
    (method path query : String) (body : Option σ) (slot : Option ρ)
    (r : HttpRequest)
    (hr : r ∈ (doRequest c net marshal decode method path query body slot).trace) :
    r.headers = [("Authorization", "Bearer " ++ c.APIKey),
                 ("Content-Type", "application/json"),
                 ("Accept", "application/json")]
    ∧ r.headers.length = 3 := by
  rcases doRequest_trace_cases c net marshal decode method path query body slot with
    h | ⟨bodyStr, h⟩
  · rw [h] at hr
    cases hr
  · rw [h] at hr
    have hr2 := List.mem_singleton.mp hr
    subst hr2
    exact ⟨rfl, rfl⟩

/-- C3 witness: the header theorem at a concrete pixel-list call. -/
theorem request_headers_exactly_three_fixed_witness :
    builtRequest (NewClient "tok") "GET" "/api/v1/link/pixel" "" ""
        ∈ (doRequest (NewClient "tok") (constNet ⟨200, "[]", false⟩) marshalJson
            decodePixelListText "GET" "/api/v1/link/pixel" "" none
            (some [])).trace
    ∧ (builtRequest (NewClient "tok") "GET" "/api/v1/link/pixel" "" "").headers
        = [("Authorization", "Bearer tok"), ("Content-Type", "application/json"),
           ("Accept", "application/json")] := by
  refine ⟨by decide, ?_⟩
  have h := request_headers_exactly_three_fixed (NewClient "tok")
    (constNet ⟨200, "[]", false⟩) marshalJson decodePixelListText
    "GET" "/api/v1/link/pixel" "" none (some [])
    (builtRequest (NewClient "tok") "GET" "/api/v1/link/pixel" "" "") (by decide)
  exact h.1

/-- C4: every request the dispatcher sends targets the URL obtained by
concatenating the base address and the path, with "?" and the query
appended exactly when the query string is non-empty. -/
theorem request_url_base_path_query {σ ρ : Type} (c : Client) (net : Net)
    (marshal : σ → Except String String) (decode : String → Except String ρ)
    (method path query : String) (body : Option σ) (slot : Option ρ)
    (r : HttpRequest)
    (hr : r ∈ (doRequest c net marshal decode method path query body slot).trace) :
    (query = "" → r.url = c.BaseURL ++ path)
    ∧ (query ≠ "" → r.url = c.BaseURL ++ path ++ "?" ++ query) := by
  rcases doRequest_trace_cases c net marshal decode method path query body slot with
    h | ⟨bodyStr, h⟩
  · rw [h] at hr
    cases hr
  · rw [h] at hr
    have hr2 := List.mem_singleton.mp hr
    subst hr2
    constructor
    · intro hq
      simp [builtRequest, doRequestUrl, hq]
    · intro hq
      simp [builtRequest, doRequestUrl, hq]

/-- C4 witness: the URL theorem at a concrete call with non-empty query. -/
theorem request_url_base_path_query_witness :
    builtRequest (NewClient "tok") "GET" "/api/v1/link" "short_url=abc" ""
        ∈ (doRequest (NewClient "tok") (constNet ⟨200, "null", false⟩) marshalJson
            decodeShortLinkText "GET" "/api/v1/link" "short_url=abc" none
            (some zeroShortLink)).trace
    ∧ (builtRequest (NewClient "tok") "GET" "/api/v1/link" "short_url=abc" "").url
        = "https://api.t.ly" ++ "/api/v1/link" ++ "?" ++ "short_url=abc" := by
  refine ⟨by decide, ?_⟩
  have h := request_url_base_path_query (NewClient "tok")
    (constNet ⟨200, "null", false⟩) marshalJson decodeShortLinkText
    "GET" "/api/v1/link" "short_url=abc" none (some zeroShortLink)
    (builtRequest (NewClient "tok") "GET" "/api/v1/link" "short_url=abc" "")
    (by decide)
  exact h.2 (by decide)

/-- C5: every call hands at most one request to the transport (no error
class is retried); a successful call sends exactly one request; a payload
serialisation failure surfaces as the call's error before any request is
sent. -/
theorem at_most_one_send_per_call {σ ρ : Type} (c : Client) (net : Net)
    (marshal : σ → Except String String) (decode : String → Except String ρ)
    (method path query : String) (body : Option σ) (slot : Option ρ) :
    (doRequest c net marshal decode method path query body slot).trace.length ≤ 1
    ∧ ((doRequest c net marshal decode method path query body slot).err = none →
        (doRequest c net marshal decode method path query body slot).trace.length = 1)
    ∧ (∀ e, goBody marshal body = .error e →
        (doRequest c net marshal decode method path query body slot).err
            = some (.marshalErr e)
        ∧ (doRequest c net marshal decode method path query body slot).trace = []) := by
  refine ⟨doRequest_trace_len c net marshal decode method path query body slot,
    doRequest_ok_trace c net marshal decode method path query body slot,
    fun e he => ?_⟩
  simp [doRequest, he]

/-- Model of a `json.Marshal` failure (structurally possible for Go
payloads even though the payload types this client uses cannot fail). -/
def failMarshal (_ : Json) : Except String String :=
  .error "json: unsupported type"

/-- C5 witness: with a failing serialiser the call errs without sending. -/
theorem at_most_one_send_per_call_witness :
    goBody failMarshal (some Json.null) = .error "json: unsupported type"
    ∧ (doRequest (NewClient "tok") downNet failMarshal decodeTagText
        "POST" "/api/v1/link/tag" "" (some Json.null) (some zeroTag)).err
        = some (.marshalErr "json: unsupported type")
    ∧ (doRequest (NewClient "tok") downNet failMarshal decodeTagText
        "POST" "/api/v1/link/tag" "" (some Json.null) (some zeroTag)).trace = [] := by
  have h := (at_most_one_send_per_call (NewClient "tok") downNet failMarshal
    decodeTagText "POST" "/api/v1/link/tag" "" (some Json.null)
    (some zeroTag)).2.2 "json: unsupported type" rfl
  exact ⟨rfl, h.1, h.2⟩

/-- A marshalled JSON object is never the empty string (it is braced). -/
theorem render_obj_ne_empty (fs : List (String × Json)) :
    (Json.obj fs).render ≠ "" := by
  intro h
  have hl := congrArg String.length h
  rw [Json.render] at hl
  simp [String.length_append] at hl
  exact absurd hl.1.1 (by decide)

/-- C6 (counterexample): `DeleteShortLink` does not send an empty body —
its request body is the serialised `{"short_url": ...}` object. -/
theorem deleteShortLink_body_not_empty :
    (DeleteShortLink (NewClient "tok") (constNet ⟨200, "", false⟩) "abc").trace
      = [builtRequest (NewClient "tok") "DELETE" "/api/v1/link" ""
           "\x7b\"short_url\":\"abc\"\x7d"]
    ∧ ("\x7b\"short_url\":\"abc\"\x7d" : String) ≠ "" :=
  ⟨rfl, by decide⟩

/-- C6 (amended): `DeletePixel` and `DeleteTag` issue their request with
an empty body; `DeleteShortLink` issues its request with the serialised
JSON body `{"short_url": <url>}` (never empty); all three, on a 2xx
response, return no error (and carry no result value). -/
theorem delete_operations_bodies_and_outcome (c : Client) (net : Net)
    (id : Int) (shortURL : String) (resp : HttpResponse)
    (hn : ∀ m u, net.newReqErr m u = none)
    (ht : ∀ h r, net.transport h r = .ok resp)
    (hs : 200 ≤ resp.statusCode ∧ resp.statusCode < 300) :
    ((DeletePixel c net id).trace
        = [builtRequest c "DELETE" ("/api/v1/link/pixel/" ++ toString id) "" ""]
      ∧ (DeletePixel c net id).err = none)
    ∧ ((DeleteTag c net id).trace
        = [builtRequest c "DELETE" ("/api/v1/link/tag/" ++ toString id) "" ""]
      ∧ (DeleteTag c net id).err = none)
    ∧ ((DeleteShortLink c net shortURL).trace
        = [builtRequest c "DELETE" "/api/v1/link" ""
             (strMapToJson [("short_url", shortURL)]).render]
      ∧ (strMapToJson [("short_url", shortURL)]).render ≠ ""
      ∧ (DeleteShortLink c net shortURL).err = none) := by
  have hns : ¬(resp.statusCode < 200 ∨ 300 ≤ resp.statusCode) := by omega
  refine ⟨⟨?_, ?_⟩, ⟨?_, ?_⟩, ⟨?_, render_obj_ne_empty _, ?_⟩⟩
  · unfold DeletePixel
    rw [doRequest_resp c net marshalJson decodeUnitText "DELETE"
      ("/api/v1/link/pixel/" ++ toString id) "" none none "" resp rfl hn ht,
      if_neg hns]
  · unfold DeletePixel
    rw [doRequest_resp c net marshalJson decodeUnitText "DELETE"
      ("/api/v1/link/pixel/" ++ toString id) "" none none "" resp rfl hn ht,
      if_neg hns]
  · unfold DeleteTag
    rw [doRequest_resp c net marshalJson decodeUnitText "DELETE"
      ("/api/v1/link/tag/" ++ toString id) "" none none "" resp rfl hn ht,
      if_neg hns]
  · unfold DeleteTag
    rw [doRequest_resp c net marshalJson decodeUnitText "DELETE"
      ("/api/v1/link/tag/" ++ toString id) "" none none "" resp rfl hn ht,
      if_neg hns]
  · simp only [DeleteShortLink]
    rw [doRequest_resp c net marshalStrMap decodeUnitText "DELETE"
      "/api/v1/link" "" (some [("short_url", shortURL)]) none
      (strMapToJson [("short_url", shortURL)]).render resp rfl hn ht,
      if_neg hns]
  · simp only [DeleteShortLink]
    rw [doRequest_resp c net marshalStrMap decodeUnitText "DELETE"
      "/api/v1/link" "" (some [("short_url", shortURL)]) none
      (strMapToJson [("short_url", shortURL)]).render resp rfl hn ht,
      if_neg hns]

/-- C6 witness: the amended theorem at concrete inputs. -/
theorem delete_operations_bodies_and_outcome_witness :
    (DeleteTag (NewClient "tok") (constNet ⟨200, "", false⟩) 5).trace
      = [builtRequest (NewClient "tok") "DELETE" "/api/v1/link/tag/5" "" ""]
    ∧ (DeleteTag (NewClient "tok") (constNet ⟨200, "", false⟩) 5).err = none
    ∧ (DeleteShortLink (NewClient "tok") (constNet ⟨200, "", false⟩) "abc").err
        = none := by
  have h := delete_operations_bodies_and_outcome (NewClient "tok")
    (constNet ⟨200, "", false⟩) 5 "abc" ⟨200, "", false⟩
    (fun _ _ => rfl) (fun _ _ => rfl) (by decide)
  exact ⟨h.2.1.1, h.2.1.2, h.2.2.2.2⟩

/-- When the request builds fine, exactly the built request reaches the
transport, whatever the transport then does. -/
theorem doRequest_sent_trace {σ ρ : Type} (c : Client) (net : Net)
    (marshal : σ → Except String String) (decode : String → Except String ρ)
    (method path query : String) (body : Option σ) (slot : Option ρ)
    (bodyStr : String)
    (hm : goBody marshal body = .ok bodyStr)
    (hn : ∀ m u, net.newReqErr m u = none) :
    (doRequest c net marshal decode method path query body slot).trace
      = [builtRequest c method path query bodyStr] := by
  simp only [doRequest, hm, hn]
  repeat' split
  all_goals rfl

/-- C7: listing short links with the single filter `search=amazon`
produces exactly that query string in the request URL, and both
`ListShortLinks` and `BulkShortenLinks` deliver a 2xx body that is a JSON
string literal as the contained string itself, undecoded — the second
decoding pass is the caller's. -/
theorem list_and_bulk_raw_string_results (c : Client) (net : Net)
    (resp : HttpResponse) (s : String) (reqData : BulkShortenRequest)
    (hn : ∀ m u, net.newReqErr m u = none)
    (ht : ∀ h r, net.transport h r = .ok resp)
    (hs : 200 ≤ resp.statusCode ∧ resp.statusCode < 300)
    (hd : parseJson resp.body = .ok (.str s)) :
    buildQuery [("search", "amazon")] = "search=amazon"
    ∧ (ListShortLinks c net [("search", "amazon")]).trace
        = [builtRequest c "GET" "/api/v1/link/list" "search=amazon" ""]
    ∧ (ListShortLinks c net [("search", "amazon")]).res = s
    ∧ (ListShortLinks c net [("search", "amazon")]).err = none
    ∧ (BulkShortenLinks c net reqData).res = s
    ∧ (BulkShortenLinks c net reqData).err = none := by
  have hns : ¬(resp.statusCode < 200 ∨ 300 ≤ resp.statusCode) := by omega
  have hd2 : decodeGoStringText resp.body = .ok s := by
    unfold decodeGoStringText
    rw [hd]
    rfl
  have hq : buildQuery [("search", "amazon")] = "search=amazon" := rfl
  refine ⟨rfl, ?_, ?_, ?_, ?_, ?_⟩
  · simp only [ListShortLinks, hq]
    rw [doRequest_resp c net marshalJson decodeGoStringText "GET"
      "/api/v1/link/list" "search=amazon" none (some "") "" resp rfl hn ht,
      if_neg hns, hd2]
    rfl
  · simp only [ListShortLinks, hq]
    rw [doRequest_resp c net marshalJson decodeGoStringText "GET"
      "/api/v1/link/list" "search=amazon" none (some "") "" resp rfl hn ht,
      if_neg hns, hd2]
    rfl
  · simp only [ListShortLinks, hq]
    rw [doRequest_resp c net marshalJson decodeGoStringText "GET"
      "/api/v1/link/list" "search=amazon" none (some "") "" resp rfl hn ht,
      if_neg hns, hd2]
    rfl
  · simp only [BulkShortenLinks]
    rw [doRequest_resp c net marshalBulk decodeGoStringText "POST"
      "/api/v1/link/bulk" "" (some reqData) (some "") reqData.toJson.render
      resp rfl hn ht, if_neg hns, hd2]
    rfl
  · simp only [BulkShortenLinks]
    rw [doRequest_resp c net marshalBulk decodeGoStringText "POST"
      "/api/v1/link/bulk" "" (some reqData) (some "") reqData.toJson.render
      resp rfl hn ht, if_neg hns, hd2]
    rfl

/-- C7 witness: the theorem at a concrete 200 whose body is the JSON
string literal `"[]"`. -/
theorem list_and_bulk_raw_string_results_witness :
    (ListShortLinks (NewClient "tok") (constNet ⟨200, "\"[]\"", false⟩)
        [("search", "amazon")]).res = "[]"
    ∧ (ListShortLinks (NewClient "tok") (constNet ⟨200, "\"[]\"", false⟩)
        [("search", "amazon")]).trace
      = [builtRequest (NewClient "tok") "GET" "/api/v1/link/list"
           "search=amazon" ""]
    ∧ (BulkShortenLinks (NewClient "tok") (constNet ⟨200, "\"[]\"", false⟩)
        ⟨"t.ly", ["https://example.com"], [], []⟩).res = "[]" := by
  have h := list_and_bulk_raw_string_results (NewClient "tok")
    (constNet ⟨200, "\"[]\"", false⟩) ⟨200, "\"[]\"", false⟩ "[]"
    ⟨"t.ly", ["https://example.com"], [], []⟩
    (fun _ _ => rfl) (fun _ _ => rfl) (by decide) rfl
  exact ⟨h.2.2.1, h.2.1, h.2.2.2.2.1⟩

/-- The query a short-URL lookup builds is never empty. -/
theorem shortUrlQuery_ne_empty (s : String) : ("short_url=" ++ s) ≠ "" := by
  intro h
  have hl := congrArg String.length h
  rw [String.length_append] at hl
  have h1 : ("short_url=" : String).length = 10 := rfl
  have h2 : ("" : String).length = 0 := rfl
  rw [h1, h2] at hl
  omega

/-- C8: for every input string, `GetShortLink` and `GetStats` send their
single request with the query string being the literal concatenation
`"short_url=" ++ shortURL` — no percent-encoding, escaping or validation
— and the target URL is base ++ path ++ "?" ++ that literal query. -/
theorem short_url_query_literal_concatenation (c : Client) (net : Net)
    (shortURL : String)
    (hn : ∀ m u, net.newReqErr m u = none) :
    ((GetShortLink c net shortURL).trace
        = [builtRequest c "GET" "/api/v1/link" ("short_url=" ++ shortURL) ""])
    ∧ ((GetStats c net shortURL).trace
        = [builtRequest c "GET" "/api/v1/link/stats" ("short_url=" ++ shortURL) ""])
    ∧ doRequestUrl c "/api/v1/link" ("short_url=" ++ shortURL)
        = c.BaseURL ++ "/api/v1/link" ++ "?" ++ ("short_url=" ++ shortURL)
    ∧ doRequestUrl c "/api/v1/link/stats" ("short_url=" ++ shortURL)
        = c.BaseURL ++ "/api/v1/link/stats" ++ "?" ++ ("short_url=" ++ shortURL) := by
  refine ⟨?_, ?_, ?_, ?_⟩
  · simp only [GetShortLink, ptrWrap_trace]
    exact doRequest_sent_trace c net marshalJson decodeShortLinkText "GET"
      "/api/v1/link" ("short_url=" ++ shortURL) none (some zeroShortLink) "" rfl hn
  · simp only [GetStats, ptrWrap_trace]
    exact doRequest_sent_trace c net marshalJson decodeStatsText "GET"
      "/api/v1/link/stats" ("short_url=" ++ shortURL) none (some zeroStats) "" rfl hn
  · unfold doRequestUrl
    rw [if_pos (shortUrlQuery_ne_empty shortURL)]
  · unfold doRequestUrl
    rw [if_pos (shortUrlQuery_ne_empty shortURL)]

/-- C8 witness: a short URL full of reserved characters goes into the
query verbatim. -/
theorem short_url_query_literal_concatenation_witness :
    (GetShortLink (NewClient "tok") downNet "https://t.ly/ab?q=1&r").trace
      = [builtRequest (NewClient "tok") "GET" "/api/v1/link"
           ("short_url=" ++ "https://t.ly/ab?q=1&r") ""]
    ∧ doRequestUrl (NewClient "tok") "/api/v1/link"
        ("short_url=" ++ "https://t.ly/ab?q=1&r")
      = "https://api.t.ly" ++ "/api/v1/link" ++ "?"
          ++ ("short_url=" ++ "https://t.ly/ab?q=1&r") := by
  have h := short_url_query_literal_concatenation (NewClient "tok") downNet
    "https://t.ly/ab?q=1&r" (fun _ _ => rfl)
  exact ⟨h.1, h.2.2.1⟩

/-- C9: no public operation mutates the credential context: after
construction, every call returns with the receiver's APIKey, BaseURL and
transport handle exactly as they were. -/
theorem operations_never_mutate_client (c : Client) (net : Net) :
    (∀ r, (CreatePixel c net r).client = c)
    ∧ ((ListPixels c net).client = c)
    ∧ (∀ id, (GetPixel c net id).client = c)
    ∧ (∀ r, (UpdatePixel c net r).client = c)
    ∧ (∀ id, (DeletePixel c net id).client = c)
    ∧ (∀ r, (CreateShortLink c net r).client = c)
    ∧ (∀ s, (GetShortLink c net s).client = c)
    ∧ (∀ r, (UpdateShortLink c net r).client = c)
    ∧ (∀ s, (DeleteShortLink c net s).client = c)
    ∧ (∀ r, (ExpandShortLink c net r).client = c)
    ∧ (∀ qp, (ListShortLinks c net qp).client = c)
    ∧ (∀ r, (BulkShortenLinks c net r).client = c)
    ∧ (∀ s, (GetStats c net s).client = c)
    ∧ ((ListTags c net).client = c)
    ∧ (∀ v, (CreateTag c net v).client = c)
    ∧ (∀ id, (GetTag c net id).client = c)
    ∧ (∀ id v, (UpdateTag c net id v).client = c)
    ∧ (∀ id, (DeleteTag c net id).client = c) := by
  refine ⟨?_, ?_, ?_, ?_, ?_, ?_, ?_, ?_, ?_, ?_, ?_, ?_, ?_, ?_, ?_, ?_, ?_, ?_⟩
  all_goals intros
  all_goals
    simp [CreatePixel, ListPixels, GetPixel, UpdatePixel, DeletePixel,
      CreateShortLink, GetShortLink, UpdateShortLink, DeleteShortLink,
      ExpandShortLink, ListShortLinks, BulkShortenLinks, GetStats, ListTags,
      CreateTag, GetTag, UpdateTag, DeleteTag,
      ptrWrap_client, strWrap_client, doRequest_client]

/-- C10: every pointer-returning operation yields a present result exactly
when its error is absent, and the string-returning operations return the
empty string whenever their error is present. -/
theorem pointer_result_present_iff_no_error (c : Client) (net : Net) :
    (∀ r, (CreatePixel c net r).res.isSome ↔ (CreatePixel c net r).err = none)
    ∧ (∀ id, (GetPixel c net id).res.isSome ↔ (GetPixel c net id).err = none)
    ∧ (∀ r, (UpdatePixel c net r).res.isSome ↔ (UpdatePixel c net r).err = none)
    ∧ (∀ r, (CreateShortLink c net r).res.isSome
        ↔ (CreateShortLink c net r).err = none)
    ∧ (∀ s, (GetShortLink c net s).res.isSome ↔ (GetShortLink c net s).err = none)
    ∧ (∀ r, (UpdateShortLink c net r).res.isSome
        ↔ (UpdateShortLink c net r).err = none)
    ∧ (∀ r, (ExpandShortLink c net r).res.isSome
        ↔ (ExpandShortLink c net r).err = none)
    ∧ (∀ s, (GetStats c net s).res.isSome ↔ (GetStats c net s).err = none)
    ∧ (∀ v, (CreateTag c net v).res.isSome ↔ (CreateTag c net v).err = none)
    ∧ (∀ id, (GetTag c net id).res.isSome ↔ (GetTag c net id).err = none)
    ∧ (∀ id v, (UpdateTag c net id v).res.isSome
        ↔ (UpdateTag c net id v).err = none)
    ∧ (∀ qp, (ListShortLinks c net qp).err ≠ none →
        (ListShortLinks c net qp).res = "")
    ∧ (∀ r, (BulkShortenLinks c net r).err ≠ none →
        (BulkShortenLinks c net r).res = "") := by
  refine ⟨fun r => ?_, fun id => ?_, fun r => ?_, fun r => ?_, fun s => ?_,
    fun r => ?_, fun r => ?_, fun s => ?_, fun v => ?_, fun id => ?_,
    fun id v => ?_, fun qp h => ?_, fun r h => ?_⟩
  · exact ptrWrap_res_iff _ (doRequest_slot_isSome c net marshalPixelCreate
      decodePixelText "POST" "/api/v1/link/pixel" "" (some r) zeroPixel)
  · exact ptrWrap_res_iff _ (doRequest_slot_isSome c net marshalJson
      decodePixelText "GET" ("/api/v1/link/pixel/" ++ toString id) "" none zeroPixel)
  · exact ptrWrap_res_iff _ (doRequest_slot_isSome c net marshalPixelUpdate
      decodePixelText "PUT" ("/api/v1/link/pixel/" ++ toString r.ID) "" (some r)
      zeroPixel)
  · exact ptrWrap_res_iff _ (doRequest_slot_isSome c net marshalShortLinkCreate
      decodeShortLinkText "POST" "/api/v1/link/shorten" "" (some r) zeroShortLink)
  · exact ptrWrap_res_iff _ (doRequest_slot_isSome c net marshalJson
      decodeShortLinkText "GET" "/api/v1/link" ("short_url=" ++ s) none
      zeroShortLink)
  · exact ptrWrap_res_iff _ (doRequest_slot_isSome c net marshalShortLinkUpdate
      decodeShortLinkText "PUT" "/api/v1/link" "" (some r) zeroShortLink)
  · exact ptrWrap_res_iff _ (doRequest_slot_isSome c net marshalExpand
      decodeExpandText "POST" "/api/v1/link/expand" "" (some r)
      zeroExpandResponse)
  · exact ptrWrap_res_iff _ (doRequest_slot_isSome c net marshalJson
      decodeStatsText "GET" "/api/v1/link/stats" ("short_url=" ++ s) none
      zeroStats)
  · exact ptrWrap_res_iff _ (doRequest_slot_isSome c net marshalStrMap
      decodeTagText "POST" "/api/v1/link/tag" "" (some [("tag", v)]) zeroTag)
  · exact ptrWrap_res_iff _ (doRequest_slot_isSome c net marshalJson
      decodeTagText "GET" ("/api/v1/link/tag/" ++ toString id) "" none zeroTag)
  · exact ptrWrap_res_iff _ (doRequest_slot_isSome c net marshalStrMap
      decodeTagText "PUT" ("/api/v1/link/tag/" ++ toString id) ""
      (some [("tag", v)]) zeroTag)
  · exact strWrap_err_res _ h
  · exact strWrap_err_res _ h

/-- C10 witness: with an unreachable transport, `ListShortLinks` returns
the empty string alongside its error, and `GetTag` returns no result. -/
theorem pointer_result_present_iff_no_error_witness :
    (ListShortLinks (NewClient "tok") downNet [("search", "amazon")]).res = ""
    ∧ ¬(GetTag (NewClient "tok") downNet 5).res.isSome := by
  have h := pointer_result_present_iff_no_error (NewClient "tok") downNet
  refine ⟨h.2.2.2.2.2.2.2.2.2.2.2.1 [("search", "amazon")] (by decide), ?_⟩
  intro hs
  have he := (h.2.2.2.2.2.2.2.2.2.1 5).mp hs
  exact absurd he (by decide)
